import Mathlib

/-!
Shallow embedding of the two candle-feed exchange adapters
(`HyperliquidPerpetualCandles` and `OKXSpotCandles`) from
`hummingbot/data_feed/candles_feed/`.  Python exceptions are modelled by an
explicit error type, Python `None` by `Option`, numeric wire values by `ℚ`
(the adapters convert everything to float at the end via
`np.array(arr).astype(float)`).
-/

/-- Python runtime errors raised by the adapter code.  `unsupportedInterval` is
the `KeyError` raised by a failed lookup in the per-exchange `INTERVALS`
table, which realizes the adapter contract's `UnsupportedInterval` failure. -/
inductive PyErr where
  | typeError
  | keyError
  | indexError
  | unsupportedInterval
  deriving DecidableEq

/-- `hummingbot.core.network_iterator.NetworkStatus` (the three members used
by the candle feeds). -/
inductive NetworkStatus where
  | connected
  | notConnected
  | disconnected
  deriving DecidableEq

/-- Modelled from the spec: `CandlesBase.ensure_timestamp_in_seconds` lives in
`candles_base.py`, outside this source excerpt.  The spec states the timestamp
"is always normalized to whole seconds regardless of source unit".  We model
the numeric cases these adapters hit: a value at or above `10^12` is taken to
be milliseconds and divided by 1000; a smaller value is already seconds. -/
def ensure_timestamp_in_seconds (t : ℚ) : ℚ :=
  if (10 : ℚ) ^ 12 ≤ t then t / 1000 else t

/-- Modelled from the spec: the per-exchange `CONSTANTS.INTERVALS` tables live
in constants modules outside this source excerpt, so the table is kept
abstract as an association list from interval token to exchange-native token.
A missing key raises `KeyError` in `CONSTANTS.INTERVALS[self.interval]`,
modelled as `unsupportedInterval`. -/
def lookupInterval (table : List (String × String)) (token : String) :
    Except PyErr String :=
  match table.lookup token with
  | some native => .ok native
  | none => .error .unsupportedInterval

/-- A well-formed row of the Hyperliquid `candleSnapshot` REST response:
an object with keys `t` (ms timestamp), `o`, `h`, `l`, `c`, `v`, `n`. -/
structure HLWireCandle where
  t : ℚ
  o : ℚ
  h : ℚ
  l : ℚ
  c : ℚ
  v : ℚ
  n : ℚ
  deriving DecidableEq

/-- The 10-field row built for one Hyperliquid wire candle
(`hyperliquid_perpetual_candles.py` line 111). -/
def hlRestRow (r : HLWireCandle) : List ℚ :=
  [ensure_timestamp_in_seconds r.t, r.o, r.h, r.l, r.c, r.v, 0, r.n, 0, 0]

/-- `HyperliquidPerpetualCandles._parse_rest_candles` (lines 108-113).  The
body runs only when `len(data) > 0`, otherwise the method falls through and
returns Python `None` (modelled `Option.none`).  The comprehension filter
compares `ensure_timestamp_in_seconds(row["t"]) < end_time`; when `end_time`
is `None` that comparison raises `TypeError` on the first row. -/
def hl_parse_rest_candles (data : List HLWireCandle) (end_time : Option ℚ) :
    Except PyErr (Option (List (List ℚ))) :=
  if 0 < data.length then
    match end_time with
    | none => .error .typeError
    | some e =>
        .ok (some ((data.filter fun r =>
          ensure_timestamp_in_seconds r.t < e).map hlRestRow))
  else
    .ok none

/-- The `req` object of the Hyperliquid `candleSnapshot` request body. -/
structure HLCandleReq where
  interval : String
  coin : String
  startTime : Option ℤ
  endTime : Option ℤ
  deriving DecidableEq

/-- The `startTime` / `endTime` pair (already scaled to ms) that
`HyperliquidPerpetualCandles.fetch_candles` puts into `reqs` (lines 81-85):
both are set when either bound is given, the missing one being derived from
the other with `limit * interval_in_seconds`. -/
def hlReqBounds (dur limit : ℤ) :
    Option ℤ → Option ℤ → Option (ℤ × ℤ)
  | none, none => none
  | some s, none => some (s * 1000, (s + limit * dur) * 1000)
  | none, some e => some ((e - limit * dur) * 1000, e * 1000)
  | some s, some e => some (s * 1000, e * 1000)

/-- `HyperliquidPerpetualCandles.fetch_candles` (lines 74-97): builds the
request (interval lookup first, then bounds), issues it — the executor's
response is passed in as `response` — and parses with the original
(seconds-valued) `end_time`.  `dur` models `self.interval_in_seconds` and
`limit` models `MAX_RESULTS_PER_CANDLESTICK_REST_REQUEST`, both defined
outside this excerpt.  The final `np.array(arr).astype(float)` is not
modelled; the result pairs the request with the parsed rows. -/
def hl_fetch_candles (table : List (String × String)) (dur limit : ℤ)
    (token coin : String) (start_time end_time : Option ℤ)
    (response : List HLWireCandle) :
    Except PyErr (HLCandleReq × Option (List (List ℚ))) := do
  let native ← lookupInterval table token
  let bounds := hlReqBounds dur limit start_time end_time
  let req : HLCandleReq :=
    { interval := native, coin := coin,
      startTime := bounds.map Prod.fst, endTime := bounds.map Prod.snd }
  let rows ← hl_parse_rest_candles response (end_time.map fun e => (e : ℚ))
  .ok (req, rows)

/-- The `subscription` object of the Hyperliquid subscribe frame. -/
structure HLSubscription where
  type_ : String
  coin : String
  interval : String
  deriving DecidableEq

/-- The Hyperliquid websocket subscribe frame. -/
structure HLWsPayload where
  method : String
  subscription : HLSubscription
  deriving DecidableEq

/-- `HyperliquidPerpetualCandles.ws_subscription_payload` (lines 115-125):
looks the interval up in `CONSTANTS.INTERVALS` (KeyError on a missing token)
and places the native token in the subscribe frame. -/
def hl_ws_subscription_payload (table : List (String × String))
    (token coin : String) : Except PyErr HLWsPayload := do
  let native ← lookupInterval table token
  .ok { method := "subscribe",
        subscription := { type_ := "candle", coin := coin, interval := native } }

/-- A well-formed row of the OKX candles REST response, as consumed by
`fetch_candles`: index 0 the ms timestamp, 1-4 OHLC, 5 `vol`, 6 `volCcy`. -/
structure OKXWireCandle where
  ts : ℚ
  o : ℚ
  h : ℚ
  l : ℚ
  c : ℚ
  vol : ℚ
  volCcy : ℚ
  deriving DecidableEq

/-- The 10-field row built for one OKX wire candle
(`okx_spot_candles.py` line 94). -/
def okxRestRow (r : OKXWireCandle) : List ℚ :=
  [ensure_timestamp_in_seconds r.ts, r.o, r.h, r.l, r.c, r.vol, r.volCcy, 0, 0, 0]

/-- The parsing step of `OKXSpotCandles.fetch_candles` (lines 94-95): map
every response row to the 10-field form, then reverse (the wire order is
newest-first). -/
def okx_parse_rest (response : List OKXWireCandle) : List (List ℚ) :=
  (response.map okxRestRow).reverse

/-- The query params built by `OKXSpotCandles.fetch_candles`. -/
structure OKXParams where
  instId : String
  bar : String
  before : Option ℤ
  after : ℤ
  deriving DecidableEq

/-- `OKXSpotCandles.fetch_candles` (lines 62-96): `bar` comes from the
interval table (KeyError on a missing token); `before` is set only when
`start_time` is truthy (so `0` and `None` alike omit it); `after` is
`end_time * 1000`, which raises `TypeError` when `end_time` is `None`.
The executor's response is passed in as `response`; the result pairs the
request params with the parsed rows. -/
def okx_fetch_candles (table : List (String × String)) (token instId : String)
    (start_time end_time : Option ℤ) (response : List OKXWireCandle) :
    Except PyErr (OKXParams × List (List ℚ)) := do
  let native ← lookupInterval table token
  let before : Option ℤ :=
    match start_time with
    | some s => if s = 0 then none else some (s * 1000)
    | none => none
  let after ← match end_time with
    | some e => Except.ok (e * 1000)
    | none => Except.error PyErr.typeError
  .ok ({ instId := instId, bar := native, before := before, after := after },
       okx_parse_rest response)

/-- One arg of the OKX subscribe frame. -/
structure OKXWsArg where
  channel : String
  instId : String
  deriving DecidableEq

/-- The OKX websocket subscribe frame. -/
structure OKXWsPayload where
  op : String
  args : List OKXWsArg
  deriving DecidableEq

/-- `OKXSpotCandles.ws_subscription_payload` (lines 98-103): channel is
`"candle"` concatenated with the native interval token. -/
def okx_ws_subscription_payload (table : List (String × String))
    (token instId : String) : Except PyErr OKXWsPayload := do
  let native ← lookupInterval table token
  .ok { op := "subscribe",
        args := [{ channel := "candle" ++ native, instId := instId }] }

/-- A JSON value, as delivered by the websocket layer after decoding. -/
inductive JVal where
  | num (q : ℚ)
  | str (s : String)
  | arr (xs : List JVal)
  | obj (kvs : List (String × JVal))
  | null

/-- Python `v == "some string"`: true exactly when `v` is that string
(comparing a non-string to a string is `False`, it does not raise). -/
def JVal.eqStr : JVal → String → Bool
  | .str s, t => s == t
  | _, _ => false

/-- Reading a JSON value as a number; the adapters store most fields raw, and
the numeric view models the eventual float conversion of well-formed data. -/
def JVal.asNum : JVal → Except PyErr ℚ
  | .num q => .ok q
  | _ => .error .typeError

/-- Python `v[i]` on a decoded JSON value: `IndexError` past the end of a
list, `TypeError` when `v` is not a list. -/
def JVal.item : JVal → Nat → Except PyErr JVal
  | .arr xs, i =>
      match xs.get? i with
      | some v => .ok v
      | none => .error .indexError
  | _, _ => .error .typeError

/-- Python `v[k]` on a decoded JSON object: `KeyError` when missing,
`TypeError` when `v` is not an object. -/
def objGet (v : JVal) (k : String) : Except PyErr JVal :=
  match v with
  | .obj kvs =>
      match kvs.lookup k with
      | some x => .ok x
      | none => .error .keyError
  | _ => .error .typeError

/-- The `candles_row_dict` both `_parse_websocket_message` implementations
build: ten named fields, read by key downstream. -/
structure WsCandleRow where
  timestamp : ℚ
  «open» : ℚ
  high : ℚ
  low : ℚ
  close : ℚ
  volume : ℚ
  quote_asset_volume : ℚ
  n_trades : ℚ
  taker_buy_base_volume : ℚ
  taker_buy_quote_volume : ℚ
  deriving DecidableEq

/-- The guard of `HyperliquidPerpetualCandles._parse_websocket_message`
(line 129): `data.get("channel") == "candle"`. -/
def hlIsCandleFrame (kvs : List (String × JVal)) : Bool :=
  match kvs.lookup "channel" with
  | some v => v.eqStr "candle"
  | none => false

/-- `HyperliquidPerpetualCandles._parse_websocket_message` (lines 127-141).
A `None` payload or a frame whose `channel` is not `"candle"` falls through
and returns Python `None`.  On a candle frame, `data["data"]` and its keys
are read (raising `KeyError` if absent), the timestamp is normalized, and
`quote_asset_volume` and both taker volumes are filled with `0`. -/
def hl_parse_websocket_message (data : Option (List (String × JVal))) :
    Except PyErr (Option WsCandleRow) :=
  match data with
  | none => .ok none
  | some kvs =>
    if hlIsCandleFrame kvs then do
      let candle ← match kvs.lookup "data" with
        | some v => Except.ok v
        | none => Except.error PyErr.keyError
      let t ← (← objGet candle "t").asNum
      let o ← (← objGet candle "o").asNum
      let l ← (← objGet candle "l").asNum
      let h ← (← objGet candle "h").asNum
      let c ← (← objGet candle "c").asNum
      let v ← (← objGet candle "v").asNum
      let n ← (← objGet candle "n").asNum
      .ok (some { timestamp := ensure_timestamp_in_seconds t, «open» := o,
                  low := l, high := h, close := c, volume := v,
                  quote_asset_volume := 0, n_trades := n,
                  taker_buy_base_volume := 0, taker_buy_quote_volume := 0 })
    else .ok none

/-- `OKXSpotCandles._parse_websocket_message` (lines 105-119).  A `None`
payload or a frame without a `"data"` key falls through and returns Python
`None`.  Any frame carrying `"data"` is indexed as a candle push:
`data["data"][0]` then items 0-6, with `n_trades` and both taker volumes
filled with `0`. -/
def okx_parse_websocket_message (data : Option (List (String × JVal))) :
    Except PyErr (Option WsCandleRow) :=
  match data with
  | none => .ok none
  | some kvs =>
    match kvs.lookup "data" with
    | none => .ok none
    | some dv => do
        let candles ← dv.item 0
        let t ← (← candles.item 0).asNum
        let o ← (← candles.item 1).asNum
        let h ← (← candles.item 2).asNum
        let l ← (← candles.item 3).asNum
        let c ← (← candles.item 4).asNum
        let v ← (← candles.item 5).asNum
        let qv ← (← candles.item 6).asNum
        .ok (some { timestamp := ensure_timestamp_in_seconds t, «open» := o,
                    high := h, low := l, close := c, volume := v,
                    quote_asset_volume := qv, n_trades := 0,
                    taker_buy_base_volume := 0, taker_buy_quote_volume := 0 })

/-- `HyperliquidPerpetualCandles.check_network` (lines 63-69): executes the
health-check request (its outcome is passed in) and returns `CONNECTED`;
there is no handler, so a request failure propagates. -/
def hl_check_network (result : Except PyErr JVal) :
    Except PyErr NetworkStatus := do
  let _ ← result
  .ok .connected

/-- `OKXSpotCandles.check_network` (lines 53-57): same shape as the
Hyperliquid one. -/
def okx_check_network (result : Except PyErr JVal) :
    Except PyErr NetworkStatus := do
  let _ ← result
  .ok .connected

/-- The timestamp slot of a 10-field row. -/
def rowTimestamp (row : List ℚ) : ℚ := row.headI

/-- Strictly ascending timestamps over a sequence of rows. -/
def rowsStrictlyAscending (rows : List (List ℚ)) : Prop :=
  rows.Pairwise fun a b => rowTimestamp a < rowTimestamp b

/-- A rational that is a whole number of seconds. -/
def wholeSeconds (q : ℚ) : Prop := q.den = 1

/-- A millisecond wire timestamp: in the millisecond range recognized by
`ensure_timestamp_in_seconds` and an exact multiple of 1000 (candle
boundaries are whole seconds on the wire). -/
def msWire (t : ℚ) : Prop := (10 : ℚ) ^ 12 ≤ t ∧ ∃ k : ℤ, t = 1000 * k

theorem except_bind_ok {ε α β : Type} {x : Except ε α} {f : α → Except ε β}
    {b : β} (h : (x >>= f) = .ok b) : ∃ a, x = .ok a ∧ f a = .ok b := by
  cases x with
  | error e => simp [Bind.bind, Except.bind] at h
  | ok a => exact ⟨a, rfl, by simpa [Bind.bind, Except.bind] using h⟩

theorem ensure_ms_eq {t : ℚ} (h : (10 : ℚ) ^ 12 ≤ t) :
    ensure_timestamp_in_seconds t = t / 1000 := by
  simp [ensure_timestamp_in_seconds, if_pos h]

theorem ensure_strictMono_ms {a b : ℚ} (ha : (10 : ℚ) ^ 12 ≤ a) (hab : a < b) :
    ensure_timestamp_in_seconds a < ensure_timestamp_in_seconds b := by
  have hb : (10 : ℚ) ^ 12 ≤ b := ha.trans hab.le
  rw [ensure_ms_eq ha, ensure_ms_eq hb]
  gcongr

theorem ensure_msWire_whole {t : ℚ} (h : msWire t) :
    wholeSeconds (ensure_timestamp_in_seconds t) ∧
      ensure_timestamp_in_seconds t = t / 1000 := by
  obtain ⟨hle, k, hk⟩ := h
  refine ⟨?_, ensure_ms_eq hle⟩
  rw [ensure_ms_eq hle, hk, mul_div_cancel_left₀ _ (by norm_num : (1000:ℚ) ≠ 0)]
  simp [wholeSeconds]

theorem except_ok_bind {ε α β : Type} (a : α) (f : α → Except ε β) :
    (Except.ok a >>= f) = f a := rfl

theorem except_error_bind {ε α β : Type} (e : ε) (f : α → Except ε β) :
    (Except.error e >>= f : Except ε β) = Except.error e := rfl

theorem hl_ws_ok_spec {kvs : List (String × JVal)} {row : WsCandleRow}
    (hp : hl_parse_websocket_message (some kvs) = .ok (some row)) :
    row.quote_asset_volume = 0 ∧ row.taker_buy_base_volume = 0 ∧
    row.taker_buy_quote_volume = 0 ∧
    ∃ candle t, kvs.lookup "data" = some candle ∧
      objGet candle "t" = .ok (.num t) ∧
      row.timestamp = ensure_timestamp_in_seconds t := by
  cases hg : hlIsCandleFrame kvs with
  | false => simp [hl_parse_websocket_message, hg] at hp
  | true =>
    simp only [hl_parse_websocket_message, hg, if_true] at hp
    cases hk : kvs.lookup "data" with
    | none =>
      rw [hk] at hp
      simp only [except_error_bind] at hp
      exact Except.noConfusion hp
    | some cval =>
      rw [hk] at hp
      simp only [except_ok_bind] at hp
      obtain ⟨tv, htv, hp⟩ := except_bind_ok hp
      obtain ⟨t, ht, hp⟩ := except_bind_ok hp
      obtain ⟨ov, hov, hp⟩ := except_bind_ok hp
      obtain ⟨o, ho, hp⟩ := except_bind_ok hp
      obtain ⟨lv, hlv, hp⟩ := except_bind_ok hp
      obtain ⟨l, hl, hp⟩ := except_bind_ok hp
      obtain ⟨hv, hhv, hp⟩ := except_bind_ok hp
      obtain ⟨hq, hh, hp⟩ := except_bind_ok hp
      obtain ⟨cv, hcv, hp⟩ := except_bind_ok hp
      obtain ⟨c, hc, hp⟩ := except_bind_ok hp
      obtain ⟨vv, hvv, hp⟩ := except_bind_ok hp
      obtain ⟨v, hvq, hp⟩ := except_bind_ok hp
      obtain ⟨nv, hnv, hp⟩ := except_bind_ok hp
      obtain ⟨n, hn, hp⟩ := except_bind_ok hp
      injection hp with hp
      injection hp with hp
      subst hp
      cases tv with
      | num q =>
        simp only [JVal.asNum] at ht
        injection ht with ht
        subst ht
        exact ⟨rfl, rfl, rfl, cval, q, rfl, htv, rfl⟩
      | str s => simp [JVal.asNum] at ht
      | arr xs => simp [JVal.asNum] at ht
      | obj kvs2 => simp [JVal.asNum] at ht
      | null => simp [JVal.asNum] at ht

theorem okx_ws_ok_spec {kvs : List (String × JVal)} {row : WsCandleRow}
    (hp : okx_parse_websocket_message (some kvs) = .ok (some row)) :
    row.n_trades = 0 ∧ row.taker_buy_base_volume = 0 ∧
    row.taker_buy_quote_volume = 0 ∧
    ∃ dv fst t, kvs.lookup "data" = some dv ∧ dv.item 0 = .ok fst ∧
      fst.item 0 = .ok (.num t) ∧
      row.timestamp = ensure_timestamp_in_seconds t := by
  cases hk : kvs.lookup "data" with
  | none => simp [okx_parse_websocket_message, hk] at hp
  | some dv =>
    simp only [okx_parse_websocket_message, hk] at hp
    obtain ⟨fst, hfst, hp⟩ := except_bind_ok hp
    obtain ⟨tv, htv, hp⟩ := except_bind_ok hp
    obtain ⟨t, ht, hp⟩ := except_bind_ok hp
    obtain ⟨ov, hov, hp⟩ := except_bind_ok hp
    obtain ⟨o, ho, hp⟩ := except_bind_ok hp
    obtain ⟨hv, hhv, hp⟩ := except_bind_ok hp
    obtain ⟨hq, hh, hp⟩ := except_bind_ok hp
    obtain ⟨lv, hlv, hp⟩ := except_bind_ok hp
    obtain ⟨l, hl, hp⟩ := except_bind_ok hp
    obtain ⟨cv, hcv, hp⟩ := except_bind_ok hp
    obtain ⟨c, hc, hp⟩ := except_bind_ok hp
    obtain ⟨vv, hvv, hp⟩ := except_bind_ok hp
    obtain ⟨v, hvq, hp⟩ := except_bind_ok hp
    obtain ⟨qvv, hqvv, hp⟩ := except_bind_ok hp
    obtain ⟨qv, hqv, hp⟩ := except_bind_ok hp
    injection hp with hp
    injection hp with hp
    subst hp
    cases tv with
    | num q =>
      simp only [JVal.asNum] at ht
      injection ht with ht
      subst ht
      exact ⟨rfl, rfl, rfl, dv, fst, q, rfl, hfst, htv, rfl⟩
    | str s => simp [JVal.asNum] at ht
    | arr xs => simp [JVal.asNum] at ht
    | obj kvs2 => simp [JVal.asNum] at ht
    | null => simp [JVal.asNum] at ht

/-- C10: for both adapters, `check_network` never returns `DISCONNECTED`:
whenever the health-check request completes it returns `CONNECTED`, and a
request failure propagates as a raised error rather than a `DISCONNECTED`
status. -/
theorem C10_check_network_never_disconnected
    (v v2 : JVal) (e e2 : PyErr) (r r2 : Except PyErr JVal) :
    hl_check_network (.ok v) = .ok .connected ∧
    okx_check_network (.ok v2) = .ok .connected ∧
    hl_check_network (.error e) = .error e ∧
    okx_check_network (.error e2) = .error e2 ∧
    hl_check_network r ≠ .ok .disconnected ∧
    okx_check_network r2 ≠ .ok .disconnected := by
  refine ⟨rfl, rfl, rfl, rfl, ?_, ?_⟩
  · cases r <;> simp [hl_check_network, except_ok_bind, except_error_bind]
  · cases r2 <;> simp [okx_check_network, except_ok_bind, except_error_bind]

/-- Witness for C10 at concrete executor outcomes. -/
theorem C10_witness :
    hl_check_network (.ok .null) = .ok .connected ∧
      okx_check_network (.error .typeError) = .error .typeError :=
  ⟨(C10_check_network_never_disconnected .null .null .typeError .typeError
      (.ok .null) (.ok .null)).1,
   (C10_check_network_never_disconnected .null .null .typeError .typeError
      (.ok .null) (.ok .null)).2.2.2.1⟩

/-- C9: OKX `fetch_candles` treats `start_time = 0` exactly like no start
bound — the `before` parameter is omitted on any falsy `start_time` — while a
non-zero `start_time` is sent multiplied by 1000. -/
theorem C9_okx_zero_start_is_no_start (table : List (String × String))
    (token instId : String) (et : Option ℤ) (resp : List OKXWireCandle)
    (s : ℤ) (hs : s ≠ 0) :
    okx_fetch_candles table token instId (some 0) et resp =
      okx_fetch_candles table token instId none et resp ∧
    (∀ p rows,
        okx_fetch_candles table token instId (some s) et resp = .ok (p, rows) →
        p.before = some (s * 1000)) := by
  constructor
  · rfl
  · intro p rows hp
    cases hlk : table.lookup token with
    | none =>
      simp [okx_fetch_candles, lookupInterval, hlk, except_error_bind] at hp
    | some native =>
      cases et with
      | none =>
        simp [okx_fetch_candles, lookupInterval, hlk, except_ok_bind,
              except_error_bind] at hp
      | some e =>
        simp only [okx_fetch_candles, lookupInterval, hlk, except_ok_bind] at hp
        injection hp with hp
        cases hp
        simp [hs]

/-- Witness for C9 at a concrete table, bounds and response. -/
theorem C9_witness :
    okx_fetch_candles [("1m", "1m")] "1m" "BTC-USDT" (some 0)
        (some 1700000000) [] =
      okx_fetch_candles [("1m", "1m")] "1m" "BTC-USDT" none
        (some 1700000000) [] ∧
    ({ instId := "BTC-USDT", bar := "1m", before := some 5000,
       after := 1700000000000 } : OKXParams).before = some (5 * 1000) :=
  ⟨(C9_okx_zero_start_is_no_start [("1m", "1m")] "1m" "BTC-USDT"
      (some 1700000000) [] 5 (by decide)).1,
   (C9_okx_zero_start_is_no_start [("1m", "1m")] "1m" "BTC-USDT"
      (some 1700000000) [] 5 (by decide)).2
     { instId := "BTC-USDT", bar := "1m", before := some 5000,
       after := 1700000000000 } [] rfl⟩

/-- C8: Hyperliquid `_parse_rest_candles` returns Python `None` — not an
empty sequence — when the response has zero rows, so `fetch_candles` of an
empty response yields `None` rather than an empty row sequence. -/
theorem C8_hl_empty_response_is_none (et : Option ℚ)
    (table : List (String × String)) (dur limit : ℤ)
    (token coin native : String) (st et2 : Option ℤ)
    (hlut : table.lookup token = some native) :
    hl_parse_rest_candles [] et = .ok none ∧
    hl_parse_rest_candles [] et ≠ .ok (some []) ∧
    hl_fetch_candles table dur limit token coin st et2 [] =
      .ok ({ interval := native, coin := coin,
             startTime := (hlReqBounds dur limit st et2).map Prod.fst,
             endTime := (hlReqBounds dur limit st et2).map Prod.snd }, none) := by
  refine ⟨rfl, by simp [hl_parse_rest_candles], ?_⟩
  cases et2 with
  | none =>
    simp [hl_fetch_candles, lookupInterval, hlut, except_ok_bind,
          hl_parse_rest_candles]
  | some e =>
    simp [hl_fetch_candles, lookupInterval, hlut, except_ok_bind,
          hl_parse_rest_candles]

/-- Witness for C8 at a concrete table and bounds. -/
theorem C8_witness :
    hl_parse_rest_candles [] none = .ok none ∧
    hl_parse_rest_candles [] none ≠ .ok (some []) ∧
    hl_fetch_candles [("1m", "1m")] 60 5000 "1m" "ETH" none none [] =
      .ok ({ interval := "1m", coin := "ETH",
             startTime := (hlReqBounds 60 5000 none none).map Prod.fst,
             endTime := (hlReqBounds 60 5000 none none).map Prod.snd }, none) :=
  C8_hl_empty_response_is_none none [("1m", "1m")] 60 5000 "1m" "ETH" "1m"
    none none rfl

/-- C7: an interval token with no entry in the exchange's interval table makes
the subscribe-payload builders and the historical fetches fail with the
`UnsupportedInterval` error (realized as the `KeyError` of the table lookup);
for a mapped token, the native token from the table is the one placed in the
subscribe frame and in the request parameters. -/
theorem C7_interval_mapping (table : List (String × String))
    (token coin instId native : String) (dur limit : ℤ)
    (st et : Option ℤ) (resp : List HLWireCandle)
    (resp2 : List OKXWireCandle) :
    (table.lookup token = none →
      hl_ws_subscription_payload table token coin =
        .error .unsupportedInterval ∧
      okx_ws_subscription_payload table token instId =
        .error .unsupportedInterval ∧
      hl_fetch_candles table dur limit token coin st et resp =
        .error .unsupportedInterval ∧
      okx_fetch_candles table token instId st et resp2 =
        .error .unsupportedInterval) ∧
    (table.lookup token = some native →
      hl_ws_subscription_payload table token coin =
        .ok { method := "subscribe",
              subscription :=
                { type_ := "candle", coin := coin, interval := native } } ∧
      okx_ws_subscription_payload table token instId =
        .ok { op := "subscribe",
              args := [{ channel := "candle" ++ native, instId := instId }] } ∧
      (∀ req rows,
          hl_fetch_candles table dur limit token coin st et resp =
            .ok (req, rows) → req.interval = native) ∧
      (∀ p rows,
          okx_fetch_candles table token instId st et resp2 = .ok (p, rows) →
          p.bar = native)) := by
  constructor
  · intro hnone
    refine ⟨?_, ?_, ?_, ?_⟩ <;>
      simp [hl_ws_subscription_payload, okx_ws_subscription_payload,
            hl_fetch_candles, okx_fetch_candles, lookupInterval, hnone,
            except_error_bind]
  · intro hsome
    refine ⟨?_, ?_, ?_, ?_⟩
    · simp [hl_ws_subscription_payload, lookupInterval, hsome, except_ok_bind]
    · simp [okx_ws_subscription_payload, lookupInterval, hsome, except_ok_bind]
    · intro req rows hp
      simp only [hl_fetch_candles, lookupInterval, hsome, except_ok_bind] at hp
      obtain ⟨rows0, hr, hp⟩ := except_bind_ok hp
      injection hp with hp
      cases hp
      rfl
    · intro p rows hp
      cases et with
      | none =>
        simp [okx_fetch_candles, lookupInterval, hsome, except_ok_bind,
              except_error_bind] at hp
      | some e =>
        simp only [okx_fetch_candles, lookupInterval, hsome,
                   except_ok_bind] at hp
        injection hp with hp
        cases hp
        rfl

/-- Witness for C7: an unmapped token fails, a mapped token's native value
lands in the subscribe frame. -/
theorem C7_witness :
    hl_ws_subscription_payload [("1m", "1m")] "5m" "ETH" =
      .error .unsupportedInterval ∧
    okx_ws_subscription_payload [("1m", "1m")] "1m" "BTC-USDT" =
      .ok { op := "subscribe",
            args := [{ channel := "candle" ++ "1m", instId := "BTC-USDT" }] } :=
  ⟨((C7_interval_mapping [("1m", "1m")] "5m" "ETH" "BTC-USDT" "1m" 60 100
      none none [] []).1 rfl).1,
   ((C7_interval_mapping [("1m", "1m")] "1m" "ETH" "BTC-USDT" "1m" 60 100
      none none [] []).2 rfl).2.1⟩

/-- C3 fails on the code: with no bounds, or with only `start_time`, both
adapters raise `TypeError` on a well-formed response instead of handling the
mode — Hyperliquid's parser compares each row timestamp against the absent
`end_time` (`float < None`), and OKX computes `after = end_time * 1000` with
`end_time = None` (`None * 1000`) before any request is issued.  Only the
end-only mode completes. -/
theorem C3_unbounded_modes_raise_typeerror :
    hl_fetch_candles [("1m", "1m")] 60 5000 "1m" "ETH" none none
        [{ t := 1700000000000, o := 1, h := 2, l := 0, c := 1, v := 3,
           n := 4 }] = .error .typeError ∧
    hl_fetch_candles [("1m", "1m")] 60 5000 "1m" "ETH" (some 1700000000) none
        [{ t := 1700000000000, o := 1, h := 2, l := 0, c := 1, v := 3,
           n := 4 }] = .error .typeError ∧
    okx_fetch_candles [("1m", "1m")] "1m" "BTC-USDT" none none [] =
      .error .typeError ∧
    okx_fetch_candles [("1m", "1m")] "1m" "BTC-USDT" (some 1700000000) none
      [] = .error .typeError ∧
    hl_fetch_candles [("1m", "1m")] 60 5000 "1m" "ETH" none (some 1700000060)
        [{ t := 1700000000000, o := 1, h := 2, l := 0, c := 1, v := 3,
           n := 4 }] =
      .ok ({ interval := "1m", coin := "ETH",
             startTime := some ((1700000060 - 5000 * 60) * 1000),
             endTime := some 1700000060000 },
           some [[1700000000, 1, 2, 0, 1, 3, 0, 4, 0, 0]]) ∧
    okx_fetch_candles [("1m", "1m")] "1m" "BTC-USDT" none (some 1700000060)
        [{ ts := 1700000000000, o := 1, h := 2, l := 0, c := 1, vol := 3,
           volCcy := 4 }] =
      .ok ({ instId := "BTC-USDT", bar := "1m", before := none,
             after := 1700000060000 },
           [[1700000000, 1, 2, 0, 1, 3, 4, 0, 0, 0]]) := by
  refine ⟨rfl, rfl, rfl, rfl, ?_, ?_⟩
  · norm_num [hl_fetch_candles, lookupInterval, List.lookup,
      hl_parse_rest_candles, hlRestRow, ensure_timestamp_in_seconds,
      except_ok_bind, List.filter, hlReqBounds]
  · norm_num [okx_fetch_candles, lookupInterval, List.lookup, okx_parse_rest,
      okxRestRow, ensure_timestamp_in_seconds, except_ok_bind]

/-- C1 as stated fails on OKX: its historical parse never filters by
`end_time`.  With `end_time = 1700000000` and a wire row at 1700000000000 ms
(= 1700000000 s, not strictly below the bound), the row is returned. -/
theorem C1_counterexample :
    okx_fetch_candles [("1m", "1m")] "1m" "BTC-USDT" none (some 1700000000)
        [{ ts := 1700000000000, o := 1, h := 2, l := 0, c := 1, vol := 3,
           volCcy := 4 }] =
      .ok ({ instId := "BTC-USDT", bar := "1m", before := none,
             after := 1700000000000 },
           [[1700000000, 1, 2, 0, 1, 3, 4, 0, 0, 0]]) ∧
    ¬ rowTimestamp [1700000000, 1, 2, 0, 1, 3, 4, 0, 0, 0] <
        (1700000000 : ℚ) := by
  constructor
  · norm_num [okx_fetch_candles, lookupInterval, List.lookup, okx_parse_rest,
      okxRestRow, ensure_timestamp_in_seconds, except_ok_bind]
  · norm_num [rowTimestamp, List.headI]

/-- C1 amended: Hyperliquid's historical parser does filter out every row
with timestamp `≥ end_time` when an end bound is supplied, but OKX's
historical parse returns every response row unfiltered — the end bound is
enforced only through the exchange-side `after` request parameter. -/
theorem C1_amended_end_time_filter (data : List HLWireCandle) (e : ℚ)
    (table : List (String × String)) (token instId : String)
    (st : Option ℤ) (e2 : ℤ) (resp : List OKXWireCandle) :
    (∀ out, hl_parse_rest_candles data (some e) = .ok (some out) →
      ∀ r ∈ out, rowTimestamp r < e) ∧
    (∀ p rows,
        okx_fetch_candles table token instId st (some e2) resp =
          .ok (p, rows) →
        rows = okx_parse_rest resp) := by
  constructor
  · intro out hout r hr
    by_cases hd : 0 < data.length
    · simp only [hl_parse_rest_candles, if_pos hd] at hout
      injection hout with hout
      injection hout with hout
      subst hout
      obtain ⟨w, hw, rfl⟩ := List.mem_map.mp hr
      have hfil := (List.mem_filter.mp hw).2
      exact of_decide_eq_true hfil
    · simp [hl_parse_rest_candles, if_neg hd] at hout
  · intro p rows hp
    cases hlk : table.lookup token with
    | none =>
      simp [okx_fetch_candles, lookupInterval, hlk, except_error_bind] at hp
    | some native =>
      simp only [okx_fetch_candles, lookupInterval, hlk, except_ok_bind] at hp
      injection hp with hp
      cases hp
      rfl

/-- Witness for C1 (amended) at a concrete response and bound. -/
theorem C1_amended_witness :
    rowTimestamp [1699999940, 1, 2, 0, 1, 3, 0, 4, 0, 0] < (1700000000 : ℚ) ∧
    ([[1700000000, 1, 2, 0, 1, 3, 4, 0, 0, 0]] : List (List ℚ)) =
      okx_parse_rest [{ ts := 1700000000000, o := 1, h := 2, l := 0, c := 1,
                        vol := 3, volCcy := 4 }] := by
  have h := C1_amended_end_time_filter
    [{ t := 1699999940000, o := 1, h := 2, l := 0, c := 1, v := 3, n := 4 }]
    1700000000 [("1m", "1m")] "1m" "BTC-USDT" none 1700000000
    [{ ts := 1700000000000, o := 1, h := 2, l := 0, c := 1, vol := 3,
       volCcy := 4 }]
  refine ⟨h.1 [[1699999940, 1, 2, 0, 1, 3, 0, 4, 0, 0]] ?_ _ ?_,
          h.2 { instId := "BTC-USDT", bar := "1m", before := none,
                after := 1700000000000 }
            [[1700000000, 1, 2, 0, 1, 3, 4, 0, 0, 0]] ?_⟩
  · norm_num [hl_parse_rest_candles, hlRestRow, ensure_timestamp_in_seconds,
      List.filter]
  · norm_num
  · norm_num [okx_fetch_candles, lookupInterval, List.lookup, okx_parse_rest,
      okxRestRow, ensure_timestamp_in_seconds, except_ok_bind]

/-- A well-formed OKX data push from another channel (trades-style: rows of
three fields), used to refute C4. -/
def okxTradesFrame : List (String × JVal) :=
  [("arg", .obj [("channel", .str "trades"), ("instId", .str "BTC-USDT")]),
   ("data", .arr [.arr [.num 1700000000000, .num 5, .num 2]])]

/-- C4 as stated fails on OKX: its stream parser treats any frame carrying a
`"data"` key as a candle push, so a well-formed frame from another channel is
not ignored — this trades-style frame raises `IndexError` instead of
returning nothing. -/
theorem C4_counterexample :
    okx_parse_websocket_message (some okxTradesFrame) = .error .indexError ∧
    okx_parse_websocket_message (some okxTradesFrame) ≠ .ok none := by
  have heval : okx_parse_websocket_message (some okxTradesFrame) =
      .error .indexError := rfl
  exact ⟨heval, by rw [heval]; exact fun h => Except.noConfusion h⟩

/-- C4 amended: Hyperliquid's stream parser returns nothing, without raising,
on a `None` payload and on any frame whose `channel` is not `"candle"`; OKX's
returns nothing, without raising, exactly on a `None` payload or a frame with
no `"data"` key (subscription acks, events, heartbeats) — but a frame on
another channel that does carry a `"data"` array is parsed as if it were a
candle push and can raise. -/
theorem C4_amended_control_frames (kvs kvs2 : List (String × JVal))
    (hhl : hlIsCandleFrame kvs = false)
    (hokx : kvs2.lookup "data" = none) :
    hl_parse_websocket_message (some kvs) = .ok none ∧
    hl_parse_websocket_message none = .ok none ∧
    okx_parse_websocket_message (some kvs2) = .ok none ∧
    okx_parse_websocket_message none = .ok none := by
  refine ⟨?_, rfl, ?_, rfl⟩
  · simp [hl_parse_websocket_message, hhl]
  · simp [okx_parse_websocket_message, hokx]

/-- Witness for C4 (amended) on a Hyperliquid ack frame and an OKX event
frame. -/
theorem C4_amended_witness :
    hl_parse_websocket_message
        (some [("channel", JVal.str "subscriptionResponse")]) = .ok none ∧
    okx_parse_websocket_message
        (some [("event", JVal.str "subscribe")]) = .ok none :=
  ⟨(C4_amended_control_frames [("channel", JVal.str "subscriptionResponse")]
      [("event", JVal.str "subscribe")] rfl rfl).1,
   (C4_amended_control_frames [("channel", JVal.str "subscriptionResponse")]
      [("event", JVal.str "subscribe")] rfl rfl).2.2.1⟩

/-- C2: for well-formed responses in each exchange's wire order — ascending
for Hyperliquid, newest-first descending for OKX — with millisecond-range
timestamps, the rows the historical parse returns are strictly ascending by
timestamp. -/
theorem C2_parsed_rows_strictly_ascending (data : List HLWireCandle) (e : ℚ)
    (resp : List OKXWireCandle)
    (hasc : data.Pairwise fun a b => a.t < b.t)
    (hms : ∀ r ∈ data, (10 : ℚ) ^ 12 ≤ r.t)
    (hdesc : resp.Pairwise fun a b => b.ts < a.ts)
    (hms2 : ∀ r ∈ resp, (10 : ℚ) ^ 12 ≤ r.ts) :
    (∀ out, hl_parse_rest_candles data (some e) = .ok (some out) →
      rowsStrictlyAscending out) ∧
    rowsStrictlyAscending (okx_parse_rest resp) := by
  constructor
  · intro out hout
    by_cases hd : 0 < data.length
    · simp only [hl_parse_rest_candles, if_pos hd] at hout
      injection hout with hout
      injection hout with hout
      subst hout
      rw [rowsStrictlyAscending, List.pairwise_map]
      have h1 : data.Pairwise (fun a b =>
          ensure_timestamp_in_seconds a.t < ensure_timestamp_in_seconds b.t) :=
        hasc.imp_of_mem fun ha _ hab => ensure_strictMono_ms (hms _ ha) hab
      exact List.Pairwise.sublist (List.filter_sublist _) h1
    · simp [hl_parse_rest_candles, if_neg hd] at hout
  · rw [rowsStrictlyAscending, okx_parse_rest, List.pairwise_reverse,
        List.pairwise_map]
    exact hdesc.imp_of_mem fun _ hb hab => ensure_strictMono_ms (hms2 _ hb) hab

/-- Witness for C2 at two-row responses in each wire order. -/
theorem C2_witness :
    rowsStrictlyAscending [[1700000000, 1, 2, 0, 1, 3, 0, 4, 0, 0],
                           [1700000060, 1, 2, 0, 1, 3, 0, 4, 0, 0]] ∧
    rowsStrictlyAscending (okx_parse_rest
      [{ ts := 1700000060000, o := 1, h := 2, l := 0, c := 1, vol := 3,
         volCcy := 4 },
       { ts := 1700000000000, o := 1, h := 2, l := 0, c := 1, vol := 3,
         volCcy := 4 }]) := by
  have h := C2_parsed_rows_strictly_ascending
    [{ t := 1700000000000, o := 1, h := 2, l := 0, c := 1, v := 3, n := 4 },
     { t := 1700000060000, o := 1, h := 2, l := 0, c := 1, v := 3, n := 4 }]
    1700000120
    [{ ts := 1700000060000, o := 1, h := 2, l := 0, c := 1, vol := 3,
       volCcy := 4 },
     { ts := 1700000000000, o := 1, h := 2, l := 0, c := 1, vol := 3,
       volCcy := 4 }]
    (by simp [List.pairwise_cons]; norm_num)
    (by intro r hr; fin_cases hr <;> norm_num)
    (by simp [List.pairwise_cons]; norm_num)
    (by intro r hr; fin_cases hr <;> norm_num)
  refine ⟨h.1 _ ?_, h.2⟩
  norm_num [hl_parse_rest_candles, hlRestRow, ensure_timestamp_in_seconds,
    List.filter]

/-- C5: every parsed candle row is the fixed 10-field row
`[timestamp, open, high, low, close, volume, quote_volume, trade_count,
taker_buy_base_volume, taker_buy_quote_volume]` in that order, with the
fields the exchange does not supply set to `0`: `quote_volume` and both
taker volumes for Hyperliquid, `trade_count` and both taker volumes for OKX
REST rows (and the OKX stream parser zero-fills the same three). -/
theorem C5_fixed_ten_field_rows (data : List HLWireCandle) (et : Option ℚ)
    (resp : List OKXWireCandle) (kvs kvs2 : List (String × JVal))
    (row row2 : WsCandleRow) :
    (∀ out, hl_parse_rest_candles data et = .ok (some out) →
      ∀ r ∈ out, ∃ w ∈ data,
        r = [ensure_timestamp_in_seconds w.t, w.o, w.h, w.l, w.c, w.v, 0,
             w.n, 0, 0]) ∧
    (∀ r ∈ okx_parse_rest resp, ∃ w ∈ resp,
      r = [ensure_timestamp_in_seconds w.ts, w.o, w.h, w.l, w.c, w.vol,
           w.volCcy, 0, 0, 0]) ∧
    (hl_parse_websocket_message (some kvs) = .ok (some row) →
      row.quote_asset_volume = 0 ∧ row.taker_buy_base_volume = 0 ∧
      row.taker_buy_quote_volume = 0) ∧
    (okx_parse_websocket_message (some kvs2) = .ok (some row2) →
      row2.n_trades = 0 ∧ row2.taker_buy_base_volume = 0 ∧
      row2.taker_buy_quote_volume = 0) := by
  refine ⟨?_, ?_, ?_, ?_⟩
  · intro out hout r hr
    by_cases hd : 0 < data.length
    · cases et with
      | none => simp [hl_parse_rest_candles, if_pos hd] at hout
      | some e =>
        simp only [hl_parse_rest_candles, if_pos hd] at hout
        injection hout with hout
        injection hout with hout
        subst hout
        obtain ⟨w, hw, rfl⟩ := List.mem_map.mp hr
        exact ⟨w, (List.mem_filter.mp hw).1, rfl⟩
    · simp [hl_parse_rest_candles, if_neg hd] at hout
  · intro r hr
    rw [okx_parse_rest, List.mem_reverse] at hr
    obtain ⟨w, hw, rfl⟩ := List.mem_map.mp hr
    exact ⟨w, hw, rfl⟩
  · intro hp
    obtain ⟨h1, h2, h3, _⟩ := hl_ws_ok_spec hp
    exact ⟨h1, h2, h3⟩
  · intro hp
    obtain ⟨h1, h2, h3, _⟩ := okx_ws_ok_spec hp
    exact ⟨h1, h2, h3⟩

/-- One-row Hyperliquid REST response used by concrete witnesses. -/
def hlDataW : List HLWireCandle :=
  [{ t := 1700000000000, o := 1, h := 2, l := 0, c := 1, v := 3, n := 4 }]

/-- One-row OKX REST response used by concrete witnesses. -/
def okxRespW : List OKXWireCandle :=
  [{ ts := 1700000000000, o := 1, h := 2, l := 0, c := 1, vol := 3,
     volCcy := 4 }]

/-- A well-formed Hyperliquid candle stream frame used by concrete
witnesses. -/
def hlFrameW : List (String × JVal) :=
  [("channel", .str "candle"),
   ("data", .obj [("t", .num 1700000000000), ("o", .num 1), ("h", .num 2),
                  ("l", .num 0), ("c", .num 1), ("v", .num 3),
                  ("n", .num 4)])]

/-- A well-formed OKX candle stream frame used by concrete witnesses. -/
def okxFrameW : List (String × JVal) :=
  [("arg", .obj [("channel", .str "candle1m")]),
   ("data", .arr [.arr [.num 1700000000000, .num 1, .num 2, .num 0, .num 1,
                        .num 3, .num 4]])]

/-- The row the Hyperliquid stream parser yields on `hlFrameW`. -/
def hlWsRowW : WsCandleRow :=
  { timestamp := 1700000000000 / 1000, «open» := 1, low := 0, high := 2,
    close := 1, volume := 3, quote_asset_volume := 0, n_trades := 4,
    taker_buy_base_volume := 0, taker_buy_quote_volume := 0 }

/-- The row the OKX stream parser yields on `okxFrameW`. -/
def okxWsRowW : WsCandleRow :=
  { timestamp := 1700000000000 / 1000, «open» := 1, high := 2, low := 0,
    close := 1, volume := 3, quote_asset_volume := 4, n_trades := 0,
    taker_buy_base_volume := 0, taker_buy_quote_volume := 0 }

/-- Witness for C5 at concrete REST responses and stream frames. -/
theorem C5_witness :
    (∃ w ∈ hlDataW, ([1700000000, 1, 2, 0, 1, 3, 0, 4, 0, 0] : List ℚ) =
      [ensure_timestamp_in_seconds w.t, w.o, w.h, w.l, w.c, w.v, 0, w.n,
       0, 0]) ∧
    (∃ w ∈ okxRespW, ([1700000000, 1, 2, 0, 1, 3, 4, 0, 0, 0] : List ℚ) =
      [ensure_timestamp_in_seconds w.ts, w.o, w.h, w.l, w.c, w.vol, w.volCcy,
       0, 0, 0]) ∧
    (hlWsRowW.quote_asset_volume = 0 ∧ hlWsRowW.taker_buy_base_volume = 0 ∧
      hlWsRowW.taker_buy_quote_volume = 0) ∧
    (okxWsRowW.n_trades = 0 ∧ okxWsRowW.taker_buy_base_volume = 0 ∧
      okxWsRowW.taker_buy_quote_volume = 0) := by
  obtain ⟨h1, h2, h3, h4⟩ := C5_fixed_ten_field_rows hlDataW
    (some 1700000120) okxRespW hlFrameW okxFrameW hlWsRowW okxWsRowW
  refine ⟨h1 [[1700000000, 1, 2, 0, 1, 3, 0, 4, 0, 0]] ?_ _ ?_,
          h2 _ ?_, h3 ?_, h4 ?_⟩
  · norm_num [hl_parse_rest_candles, hlDataW, hlRestRow,
      ensure_timestamp_in_seconds, List.filter]
  · norm_num
  · norm_num [okx_parse_rest, okxRespW, okxRestRow,
      ensure_timestamp_in_seconds]
  · rfl
  · rfl

/-- C6: every timestamp in every parsed candle row — REST rows and stream
rows for both adapters — is the millisecond wire timestamp normalized to a
whole number of seconds (divided by 1000). -/
theorem C6_timestamps_normalized_to_seconds (data : List HLWireCandle)
    (et : Option ℚ) (resp : List OKXWireCandle)
    (kvs kvs2 : List (String × JVal)) (row row2 : WsCandleRow)
    (cnd dv fst : JVal) (tw tw2 : ℚ)
    (hms : ∀ r ∈ data, msWire r.t) (hms2 : ∀ r ∈ resp, msWire r.ts) :
    (∀ out, hl_parse_rest_candles data et = .ok (some out) →
      ∀ r ∈ out, wholeSeconds (rowTimestamp r)) ∧
    (∀ r ∈ okx_parse_rest resp, wholeSeconds (rowTimestamp r)) ∧
    (kvs.lookup "data" = some cnd → objGet cnd "t" = .ok (.num tw) →
      msWire tw → hl_parse_websocket_message (some kvs) = .ok (some row) →
      wholeSeconds row.timestamp ∧ row.timestamp = tw / 1000) ∧
    (kvs2.lookup "data" = some dv → dv.item 0 = .ok fst →
      fst.item 0 = .ok (.num tw2) → msWire tw2 →
      okx_parse_websocket_message (some kvs2) = .ok (some row2) →
      wholeSeconds row2.timestamp ∧ row2.timestamp = tw2 / 1000) := by
  refine ⟨?_, ?_, ?_, ?_⟩
  · intro out hout r hr
    by_cases hd : 0 < data.length
    · cases et with
      | none => simp [hl_parse_rest_candles, if_pos hd] at hout
      | some e =>
        simp only [hl_parse_rest_candles, if_pos hd] at hout
        injection hout with hout
        injection hout with hout
        subst hout
        obtain ⟨w, hw, rfl⟩ := List.mem_map.mp hr
        have hwd : w ∈ data := (List.mem_filter.mp hw).1
        exact (ensure_msWire_whole (hms w hwd)).1
    · simp [hl_parse_rest_candles, if_neg hd] at hout
  · intro r hr
    rw [okx_parse_rest, List.mem_reverse] at hr
    obtain ⟨w, hw, rfl⟩ := List.mem_map.mp hr
    exact (ensure_msWire_whole (hms2 w hw)).1
  · intro hk ho hmw hp
    obtain ⟨_, _, _, cnd2, t2, hk2, ho2, hts⟩ := hl_ws_ok_spec hp
    rw [hk] at hk2
    injection hk2 with hk2
    subst hk2
    rw [ho] at ho2
    injection ho2 with ho2
    injection ho2 with ho2
    subst ho2
    rw [hts]
    exact ⟨(ensure_msWire_whole hmw).1, (ensure_msWire_whole hmw).2⟩
  · intro hk hitem hfst hmw hp
    obtain ⟨_, _, _, dv2, fst2, t2, hk2, hi2, hf2, hts⟩ := okx_ws_ok_spec hp
    rw [hk] at hk2
    injection hk2 with hk2
    subst hk2
    rw [hitem] at hi2
    injection hi2 with hi2
    subst hi2
    rw [hfst] at hf2
    injection hf2 with hf2
    injection hf2 with hf2
    subst hf2
    rw [hts]
    exact ⟨(ensure_msWire_whole hmw).1, (ensure_msWire_whole hmw).2⟩

/-- Witness for C6 at concrete responses and frames. -/
theorem C6_witness :
    wholeSeconds (rowTimestamp [1700000000, 1, 2, 0, 1, 3, 0, 4, 0, 0]) ∧
    wholeSeconds (rowTimestamp [1700000000, 1, 2, 0, 1, 3, 4, 0, 0, 0]) ∧
    (wholeSeconds hlWsRowW.timestamp ∧
      hlWsRowW.timestamp = 1700000000000 / 1000) ∧
    (wholeSeconds okxWsRowW.timestamp ∧
      okxWsRowW.timestamp = 1700000000000 / 1000) := by
  have hmsw : msWire 1700000000000 :=
    ⟨by norm_num, 1700000000, by norm_num⟩
  obtain ⟨h1, h2, h3, h4⟩ := C6_timestamps_normalized_to_seconds hlDataW
    (some 1700000120) okxRespW hlFrameW okxFrameW hlWsRowW okxWsRowW
    (.obj [("t", .num 1700000000000), ("o", .num 1), ("h", .num 2),
           ("l", .num 0), ("c", .num 1), ("v", .num 3), ("n", .num 4)])
    (.arr [.arr [.num 1700000000000, .num 1, .num 2, .num 0, .num 1,
                 .num 3, .num 4]])
    (.arr [.num 1700000000000, .num 1, .num 2, .num 0, .num 1, .num 3,
           .num 4])
    1700000000000 1700000000000
    (by intro r hr
        simp only [hlDataW, List.mem_singleton] at hr
        subst hr
        exact hmsw)
    (by intro r hr
        simp only [okxRespW, List.mem_singleton] at hr
        subst hr
        exact hmsw)
  refine ⟨h1 [[1700000000, 1, 2, 0, 1, 3, 0, 4, 0, 0]] ?_ _ ?_,
          h2 _ ?_, h3 rfl rfl hmsw rfl, h4 rfl rfl rfl hmsw rfl⟩
  · norm_num [hl_parse_rest_candles, hlDataW, hlRestRow,
      ensure_timestamp_in_seconds, List.filter]
  · norm_num
  · norm_num [okx_parse_rest, okxRespW, okxRestRow,
      ensure_timestamp_in_seconds]
